import Mathlib

/-!
Verification of the client-side logic of a TikTok downloader front end
(src/script.js): URL validation by regular expressions, lookup-response
normalization, error wrapping in the lookup client, the controller's
cancellation behaviour, and the download dispatcher.

The JavaScript regular expressions are embedded as a small regex calculus
with character-class atoms; matching is decided by Brzozowski derivatives,
and a declarative matching relation is proved sound for the decision
procedure so that universally quantified shape claims can be settled.
-/

namespace TikTokDL

/-- Regular expressions over characters, with character-class atoms
given by a boolean predicate (this covers the classes used by the
source patterns). -/
inductive RE where
  | emp : RE
  | eps : RE
  | cls : (Char → Bool) → RE
  | cat : RE → RE → RE
  | alt : RE → RE → RE
  | star : RE → RE

/-- Whether a regular expression accepts the empty word. -/
def nullable : RE → Bool
  | .emp => false
  | .eps => true
  | .cls _ => false
  | .cat r₁ r₂ => nullable r₁ && nullable r₂
  | .alt r₁ r₂ => nullable r₁ || nullable r₂
  | .star _ => true

/-- Smart concatenation, collapsing the empty language and the empty word. -/
def scat : RE → RE → RE
  | .emp, _ => .emp
  | _, .emp => .emp
  | .eps, r₂ => r₂
  | r₁, .eps => r₁
  | r₁, r₂ => .cat r₁ r₂

/-- Smart alternation, collapsing the empty language. -/
def salt : RE → RE → RE
  | .emp, r₂ => r₂
  | r₁, .emp => r₁
  | r₁, r₂ => .alt r₁ r₂

/-- Brzozowski derivative of a regular expression by a character. -/
def deriv : RE → Char → RE
  | .emp, _ => .emp
  | .eps, _ => .emp
  | .cls p, c => if p c then .eps else .emp
  | .cat r₁ r₂, c =>
      if nullable r₁ then salt (scat (deriv r₁ c) r₂) (deriv r₂ c)
      else scat (deriv r₁ c) r₂
  | .alt r₁ r₂, c => salt (deriv r₁ c) (deriv r₂ c)
  | .star r, c => scat (deriv r c) (.star r)

/-- Anchored regex matching by repeated derivatives. -/
def rmatch : RE → List Char → Bool
  | r, [] => nullable r
  | r, c :: s => rmatch (deriv r c) s

/-- Declarative matching relation: `Matches r s` holds when the word `s`
is in the language of `r`. -/
inductive Matches : RE → List Char → Prop where
  | eps : Matches .eps []
  | cls {p : Char → Bool} {c : Char} : p c = true → Matches (.cls p) [c]
  | catM {r₁ r₂ : RE} {s₁ s₂ : List Char} :
      Matches r₁ s₁ → Matches r₂ s₂ → Matches (.cat r₁ r₂) (s₁ ++ s₂)
  | altL {r₁ r₂ : RE} {s : List Char} : Matches r₁ s → Matches (.alt r₁ r₂) s
  | altR {r₁ r₂ : RE} {s : List Char} : Matches r₂ s → Matches (.alt r₁ r₂) s
  | starNil {r : RE} : Matches (.star r) []
  | starCat {r : RE} {s₁ s₂ : List Char} :
      Matches r s₁ → Matches (.star r) s₂ → Matches (.star r) (s₁ ++ s₂)

theorem nullable_of_matches_nil {r : RE} {l : List Char}
    (h : Matches r l) (hl : l = []) : nullable r = true := by
  induction h with
  | eps => rfl
  | cls _ => simp at hl
  | catM h₁ h₂ ih₁ ih₂ =>
      rcases List.append_eq_nil.mp hl with ⟨e₁, e₂⟩
      simp [nullable, ih₁ e₁, ih₂ e₂]
  | altL h ih => simp [nullable, ih hl]
  | altR h ih => simp [nullable, ih hl]
  | starNil => rfl
  | starCat h₁ h₂ ih₁ ih₂ => rfl

theorem not_matches_emp {s : List Char} : ¬ Matches .emp s := by
  intro h
  cases h

theorem matches_saltL {r₁ r₂ : RE} {s : List Char}
    (h : Matches r₁ s) : Matches (salt r₁ r₂) s := by
  cases r₁ <;> cases r₂ <;>
    first
      | exact (not_matches_emp h).elim
      | exact h
      | exact Matches.altL h

theorem matches_saltR {r₁ r₂ : RE} {s : List Char}
    (h : Matches r₂ s) : Matches (salt r₁ r₂) s := by
  cases r₁ <;> cases r₂ <;>
    first
      | exact (not_matches_emp h).elim
      | exact h
      | exact Matches.altR h

theorem matches_scat {r₁ r₂ : RE} {s₁ s₂ : List Char}
    (h₁ : Matches r₁ s₁) (h₂ : Matches r₂ s₂) :
    Matches (scat r₁ r₂) (s₁ ++ s₂) := by
  cases r₁ <;> cases r₂ <;>
    first
      | exact (not_matches_emp h₁).elim
      | exact (not_matches_emp h₂).elim
      | (cases h₁; exact h₂)
      | (cases h₂; simpa using h₁)
      | exact Matches.catM h₁ h₂

theorem matches_deriv {r : RE} {l : List Char} (h : Matches r l) :
    ∀ c s, l = c :: s → Matches (deriv r c) s := by
  induction h with
  | eps => intro c s hcs; simp at hcs
  | @cls p c' hp =>
      intro c s hcs
      obtain ⟨rfl, rfl⟩ : c' = c ∧ s = [] := by
        constructor <;> simp_all
      simp only [deriv, hp, if_pos]
      exact Matches.eps
  | @catM r₁ r₂ s₁ s₂ h₁ h₂ ih₁ ih₂ =>
      intro c s hcs
      cases s₁ with
      | nil =>
          have hn : nullable r₁ = true := nullable_of_matches_nil h₁ rfl
          have hs : s₂ = c :: s := by simpa using hcs
          simp only [deriv, hn, if_pos]
          exact matches_saltR (ih₂ c s hs)
      | cons a s₁' =>
          have ha : a = c := by simpa using congrArg (fun t => t.head?) hcs
          have hs : s = s₁' ++ s₂ := by
            subst ha
            simpa using hcs.symm
          have hd : Matches (deriv r₁ c) s₁' := ih₁ c s₁' (by rw [← ha])
          have hcat : Matches (scat (deriv r₁ c) r₂) (s₁' ++ s₂) :=
            matches_scat hd h₂
          subst hs
          cases hn : nullable r₁ with
          | true => simp only [deriv, hn, if_pos]; exact matches_saltL hcat
          | false => simpa only [deriv, hn, if_neg, Bool.false_eq_true,
              not_false_iff] using hcat
  | altL h ih =>
      intro c s hcs
      exact matches_saltL (ih c s hcs)
  | altR h ih =>
      intro c s hcs
      exact matches_saltR (ih c s hcs)
  | starNil => intro c s hcs; simp at hcs
  | @starCat r' s₁ s₂ h₁ h₂ ih₁ ih₂ =>
      intro c s hcs
      cases s₁ with
      | nil =>
          exact ih₂ c s (by simpa using hcs)
      | cons a s₁' =>
          have ha : a = c := by simpa using congrArg (fun t => t.head?) hcs
          have hs : s = s₁' ++ s₂ := by
            subst ha
            simpa using hcs.symm
          have hd : Matches (deriv r' c) s₁' := ih₁ c s₁' (by rw [← ha])
          subst hs
          exact matches_scat hd h₂

theorem rmatch_complete : ∀ (l : List Char) (r : RE), Matches r l → rmatch r l = true := by
  intro l
  induction l with
  | nil => intro r h; exact nullable_of_matches_nil h rfl
  | cons c s ih => intro r h; exact ih _ (matches_deriv h c s rfl)

/-! ### The source regular expressions (src/script.js, isValidTikTokUrl) -/

/-- JavaScript word character, the class denoted by a backslash-w atom:
ASCII letters, digits and underscore. -/
def wChar (c : Char) : Bool := c.isAlphanum || c == '_'

/-- The character class of the source video/photo patterns: word characters,
dot and hyphen. -/
def wddChar (c : Char) : Bool := wChar c || c == '.' || c == '-'

/-- The character class of the source short-link patterns: word characters
and hyphen. -/
def wdChar (c : Char) : Bool := wChar c || c == '-'

/-- The JavaScript dot atom without the dotAll flag: any character except
the four line terminators. -/
def dotChar (c : Char) : Bool :=
  !(c == '\n' || c == '\r' || c == Char.ofNat 0x2028 || c == Char.ofNat 0x2029)

/-- Literal word: the concatenation of single-character atoms. -/
def lit : List Char → RE
  | [] => .eps
  | c :: l => .cat (.cls (fun d => d == c)) (lit l)

/-- One-or-more repetition, as the expansion of the regex plus operator. -/
def plusRE (r : RE) : RE := .cat r (.star r)

/-- Pattern 1 of the source list: tiktok.com/@user/video/digits. -/
def pat1 : RE :=
  .cat (lit "tiktok.com/@".data)
    (.cat (plusRE (.cls wddChar)) (.cat (lit "/video/".data) (plusRE (.cls Char.isDigit))))

/-- Pattern 2 of the source list: tiktok.com/ then anything then /video/digits. -/
def pat2 : RE :=
  .cat (lit "tiktok.com/".data)
    (.cat (.star (.cls dotChar)) (.cat (lit "/video/".data) (plusRE (.cls Char.isDigit))))

/-- Pattern 3 of the source list: tiktok.com/@user/photo/digits. -/
def pat3 : RE :=
  .cat (lit "tiktok.com/@".data)
    (.cat (plusRE (.cls wddChar)) (.cat (lit "/photo/".data) (plusRE (.cls Char.isDigit))))

/-- Pattern 4 of the source list: tiktok.com/ then anything then /photo/digits. -/
def pat4 : RE :=
  .cat (lit "tiktok.com/".data)
    (.cat (.star (.cls dotChar)) (.cat (lit "/photo/".data) (plusRE (.cls Char.isDigit))))

/-- Pattern 5 of the source list: the vm.tiktok.com short-link host form. -/
def pat5 : RE := .cat (lit "vm.tiktok.com/".data) (plusRE (.cls wdChar))

/-- Pattern 6 of the source list: the vt.tiktok.com short-link host form. -/
def pat6 : RE := .cat (lit "vt.tiktok.com/".data) (plusRE (.cls wdChar))

/-- Pattern 7 of the source list: the tiktok.com/t/ short-link path form. -/
def pat7 : RE := .cat (lit "tiktok.com/t/".data) (plusRE (.cls wdChar))

/-- The source's pattern list, in order. -/
def patterns : List RE := [pat1, pat2, pat3, pat4, pat5, pat6, pat7]

/-- The class accepting every character; used to embed the unanchored
JavaScript regex test as a full match with arbitrary context. -/
def anyCharRE : RE := .cls (fun _ => true)

/-- Unanchored regex test, as performed by the JavaScript test method:
some substring of the input matches the pattern. -/
def testRE (r : RE) (s : List Char) : Bool :=
  rmatch (.cat (.star anyCharRE) (.cat r (.star anyCharRE))) s

/-- List-of-characters form of the source URL validator. -/
def isValidL (s : List Char) : Bool :=
  patterns.any (fun p => testRE p s)

/-- The source URL validator (src/script.js, isValidTikTokUrl): the input
is accepted when at least one of the seven patterns tests positively. -/
def isValidTikTokUrl (s : String) : Bool := isValidL s.data

/-! ### Matching-relation helpers for the shape claims -/

theorem matches_lit : ∀ l : List Char, Matches (lit l) l := by
  intro l
  induction l with
  | nil => exact Matches.eps
  | cons c l ih =>
      have hc : Matches (.cls (fun d => d == c)) [c] := Matches.cls (by simp)
      exact Matches.catM hc ih

theorem matches_star_any : ∀ s : List Char, Matches (.star anyCharRE) s := by
  intro s
  induction s with
  | nil => exact Matches.starNil
  | cons c s ih =>
      have hc : Matches anyCharRE [c] := Matches.cls rfl
      exact Matches.starCat hc ih

theorem matches_star_cls {p : Char → Bool} :
    ∀ l : List Char, (∀ c ∈ l, p c = true) → Matches (.star (.cls p)) l := by
  intro l
  induction l with
  | nil => intro _; exact Matches.starNil
  | cons c l ih =>
      intro h
      have hc : Matches (.cls p) [c] := Matches.cls (h c (List.mem_cons_self c l))
      exact Matches.starCat hc (ih fun d hd => h d (List.mem_cons_of_mem c hd))

theorem matches_plus_cls {p : Char → Bool} {l : List Char}
    (h0 : l ≠ []) (h : ∀ c ∈ l, p c = true) : Matches (plusRE (.cls p)) l := by
  cases l with
  | nil => exact absurd rfl h0
  | cons c l =>
      have hc : Matches (.cls p) [c] := Matches.cls (h c (List.mem_cons_self c l))
      exact Matches.catM hc (matches_star_cls l fun d hd => h d (List.mem_cons_of_mem c hd))

theorem testRE_of_matches (r : RE) (pre mid post : List Char)
    (h : Matches r mid) : testRE r (pre ++ mid ++ post) = true := by
  have hw : Matches (.cat (.star anyCharRE) (.cat r (.star anyCharRE)))
      (pre ++ (mid ++ post)) :=
    Matches.catM (matches_star_any pre) (Matches.catM h (matches_star_any post))
  have hassoc : pre ++ mid ++ post = pre ++ (mid ++ post) := List.append_assoc pre mid post
  rw [hassoc]
  exact rmatch_complete _ _ hw

theorem isValidL_of_matches (p : RE) (hp : p ∈ patterns)
    (pre mid post : List Char) (h : Matches p mid) :
    isValidL (pre ++ mid ++ post) = true := by
  have ht : testRE p (pre ++ mid ++ post) = true := testRE_of_matches p pre mid post h
  unfold isValidL
  rw [List.any_eq_true]
  exact ⟨p, hp, ht⟩

theorem pat1_mem : pat1 ∈ patterns := by simp [patterns]

theorem pat3_mem : pat3 ∈ patterns := by simp [patterns]

theorem pat5_mem : pat5 ∈ patterns := by simp [patterns]

theorem pat6_mem : pat6 ∈ patterns := by simp [patterns]

theorem pat7_mem : pat7 ∈ patterns := by simp [patterns]

theorem matches_pat1 {u d : List Char} (hu0 : u ≠ []) (hu : ∀ c ∈ u, wddChar c = true)
    (hd0 : d ≠ []) (hd : ∀ c ∈ d, Char.isDigit c = true) :
    Matches pat1 ("tiktok.com/@".data ++ (u ++ ("/video/".data ++ d))) :=
  Matches.catM (matches_lit _)
    (Matches.catM (matches_plus_cls hu0 hu)
      (Matches.catM (matches_lit _) (matches_plus_cls hd0 hd)))

theorem matches_pat3 {u d : List Char} (hu0 : u ≠ []) (hu : ∀ c ∈ u, wddChar c = true)
    (hd0 : d ≠ []) (hd : ∀ c ∈ d, Char.isDigit c = true) :
    Matches pat3 ("tiktok.com/@".data ++ (u ++ ("/photo/".data ++ d))) :=
  Matches.catM (matches_lit _)
    (Matches.catM (matches_plus_cls hu0 hu)
      (Matches.catM (matches_lit _) (matches_plus_cls hd0 hd)))

theorem matches_pat5 {t : List Char} (ht0 : t ≠ []) (ht : ∀ c ∈ t, wdChar c = true) :
    Matches pat5 ("vm.tiktok.com/".data ++ t) :=
  Matches.catM (matches_lit _) (matches_plus_cls ht0 ht)

theorem matches_pat6 {t : List Char} (ht0 : t ≠ []) (ht : ∀ c ∈ t, wdChar c = true) :
    Matches pat6 ("vt.tiktok.com/".data ++ t) :=
  Matches.catM (matches_lit _) (matches_plus_cls ht0 ht)

theorem matches_pat7 {t : List Char} (ht0 : t ≠ []) (ht : ∀ c ∈ t, wdChar c = true) :
    Matches pat7 ("tiktok.com/t/".data ++ t) :=
  Matches.catM (matches_lit _) (matches_plus_cls ht0 ht)

/-! ### JavaScript value helpers

Optional string fields model JSON fields that may be absent (undefined or
null map to `none`). JavaScript truthiness on such a field: absent values
and the empty string are falsy, every other string is truthy. -/

/-- JavaScript truthiness of an optional string field. -/
def truthy : Option String → Bool
  | none => false
  | some s => !(s == "")

/-- The JavaScript or-operator on two optional string fields: returns the
first operand when truthy, otherwise the second operand unchanged. -/
def jsOr (a b : Option String) : Option String :=
  if truthy a then a else b

/-- The JavaScript or-operator against a literal default string: returns
the field's string when truthy, otherwise the default. -/
def jsOrD (a : Option String) (dflt : String) : String :=
  match a with
  | none => dflt
  | some s => if s == "" then dflt else s

/-! ### Lookup response shape and the normalizer (src/script.js, fetchTikTokData) -/

/-- The author object of the lookup API response. -/
structure Author where
  unique_id : Option String := none
  nickname : Option String := none
deriving DecidableEq

/-- The data object of the lookup API response. -/
structure ApiData where
  title : Option String := none
  author : Option Author := none
  cover : Option String := none
  origin_cover : Option String := none
  images : Option (List String) := none
  hdplay : Option String := none
  play : Option String := none
  wmplay : Option String := none
  duration : Option Int := none
deriving DecidableEq

/-- Optional chaining to the author's unique_id field. -/
def authUid (d : ApiData) : Option String :=
  match d.author with
  | none => none
  | some a => a.unique_id

/-- Optional chaining to the author's nickname field. -/
def authNick (d : ApiData) : Option String :=
  match d.author with
  | none => none
  | some a => a.nickname

/-- The source's photo test: the images field is present and the array is
non-empty (an absent field is falsy; a present empty array fails the
length check). -/
def jsImagesFlag (images : Option (List String)) : Bool :=
  match images with
  | none => false
  | some l => !l.isEmpty

/-- The normalized result returned on a successful lookup. -/
structure MediaResult where
  title : String
  author : String
  thumbnail : Option String
  videoUrl : Option String
  images : Option (List String)
  isPhoto : Bool
  duration : Option Int
deriving DecidableEq

/-- The response normalizer: the object literal returned by
fetchTikTokData on a successful lookup (src/script.js lines 170-180). -/
def normalizeData (d : ApiData) : MediaResult :=
  { title := jsOrD d.title "TikTok Content"
  , author := jsOrD (authUid d) (jsOrD (authNick d) "@tiktok")
  , thumbnail := jsOr d.cover d.origin_cover
  , videoUrl := if jsImagesFlag d.images then none else jsOr d.hdplay (jsOr d.play d.wmplay)
  , images := if jsImagesFlag d.images then d.images else none
  , isPhoto := jsImagesFlag d.images
  , duration := d.duration }

/-! ### The lookup client's error wrapping (src/script.js, fetchTikTokData) -/

/-- A JavaScript error value as observed by catch clauses: its name and
its message. -/
structure JsError where
  name : String
  message : String
deriving DecidableEq

/-- The parsed JSON body of the lookup response. -/
structure ApiBody where
  code : Int
  msg : Option String := none
  data : Option ApiData := none
deriving DecidableEq

/-- Outcome of the JSON-parsing step of the response. -/
inductive JsonBody where
  | parseError (message : String) : JsonBody
  | parsed (body : ApiBody) : JsonBody
deriving DecidableEq

/-- The possible resolutions of the fetch call inside fetchTikTokData:
rejection with an AbortError after cancellation, rejection with a network
TypeError, or an HTTP response with its ok flag and its body. -/
inductive FetchOutcome where
  | aborted : FetchOutcome
  | networkError (message : String) : FetchOutcome
  | response (ok : Bool) (body : JsonBody) : FetchOutcome
deriving DecidableEq

/-- The generic user-facing failure message of the lookup client. -/
def genericFetchMessage : String :=
  "Unable to fetch content. Please check the URL and try again."

/-- The body of the try block of fetchTikTokData: throws on a non-ok
response, on a JSON parse failure, on a non-zero application code (with
the API message when truthy), and on property access into an absent data
object; otherwise returns the normalized result. -/
def fetchInner : FetchOutcome → Except JsError MediaResult
  | .aborted => .error { name := "AbortError", message := "The operation was aborted." }
  | .networkError m => .error { name := "TypeError", message := m }
  | .response ok body =>
      if ok then
        match body with
        | .parseError m => .error { name := "SyntaxError", message := m }
        | .parsed r =>
            if r.code ≠ 0 then
              .error { name := "Error", message := jsOrD r.msg "Failed to fetch content" }
            else
              match r.data with
              | none => .error { name := "TypeError"
                               , message := "Cannot read properties of undefined" }
              | some d => .ok (normalizeData d)
      else .error { name := "Error", message := "Failed to fetch content data" }

/-- fetchTikTokData as observed by its caller: the catch clause logs the
original error to the console (second component) and replaces every
failure by a plain Error carrying the fixed generic message. -/
def fetchTikTokData (o : FetchOutcome) : Except JsError MediaResult × List JsError :=
  match fetchInner o with
  | .ok v => (.ok v, [])
  | .error e => (.error { name := "Error", message := genericFetchMessage }, [e])

/-! ### Controller state and the lookup lifecycle (src/script.js, handleDownload) -/

/-- The controller state observable by the UI: the loading flag, the
rendered result, the surfaced error message, and the in-flight request
slot (the global abortController, identified by a token). -/
structure ControllerState where
  loading : Bool := false
  resultShown : Option MediaResult := none
  errorShown : Option String := none
  inFlight : Option Nat := none
deriving DecidableEq

/-- The synchronous prefix of handleDownload once validation has passed:
any prior in-flight lookup is aborted (its pending fetch will resolve
with the aborted outcome), a fresh controller is installed, the error and
result are hidden and the loading flag is set. -/
def startLookup (s : ControllerState) (tok : Nat) : ControllerState :=
  { s with errorShown := none, resultShown := none, loading := true, inFlight := some tok }

/-- The continuation of handleDownload after its lookup resolves with
outcome o: on success the result is rendered; on failure the error is
surfaced unless its name is AbortError; the finally clause then clears
the loading flag and nulls the in-flight slot unconditionally. -/
def resumeLookup (s : ControllerState) (o : FetchOutcome) : ControllerState :=
  let afterTry :=
    match (fetchTikTokData o).1 with
    | .ok v => { s with resultShown := some v }
    | .error e =>
        if e.name == "AbortError" then s
        else
          let m := if e.message == "" then "An error occurred. Please try again." else e.message
          { s with errorShown := some m }
  { afterTry with loading := false, inFlight := none }

/-! ### Author display (src/script.js, displayResult) -/

/-- JavaScript startsWith on strings. -/
def jsStartsWith (s pre : String) : Bool := pre.data.isPrefixOf s.data

/-- The at-prefixing step of the author line rendered by displayResult: an
at-sign is prepended unless the string already starts with one. -/
def displayAuthorCore (a' : String) : String :=
  if jsStartsWith a' "@" then a' else "@" ++ a'

/-- The author line rendered by displayResult: an empty author falls back
to tiktok, then the at-prefixing step is applied. -/
def displayAuthor (a : String) : String :=
  displayAuthorCore (if a == "" then "tiktok" else a)

/-- Length of the run of leading at-signs of a string. -/
def leadingAtCount (s : String) : Nat := (s.data.takeWhile (fun c => c == '@')).length

/-! ### The download dispatcher (src/script.js, downloadMedia) -/

/-- Observable actions of the download dispatcher, in order. -/
inductive DlEvent where
  | toast (message : String) (isError : Bool) : DlEvent
  | blobFetch (url : String) : DlEvent
  | blobAnchorClick (filename : String) : DlEvent
  | windowOpen (url : String) : DlEvent
  | anchorClick (url : String) (filename : String) : DlEvent
deriving DecidableEq

/-- The download dispatcher: it always attempts the blob fetch first; on
success it clicks a synthetic anchor at the blob URL; on failure it opens
the raw URL in a new context with a manual-save toast when the platform
was detected as iOS, and otherwise clicks a plain anchor at the raw URL. -/
def downloadMedia (isIOS fetchOk : Bool) (url filename : String) : List DlEvent :=
  [.toast "Starting download..." false, .blobFetch url] ++
    (if fetchOk then [.blobAnchorClick filename, .toast "Download started!" false]
     else if isIOS then [.toast "iOS: Please long press to save" true, .windowOpen url]
     else [.anchorClick url filename])

/-! ### Claim theorems -/

/-- Claim C1: the claim says that when lookup B is issued while lookup A is
in flight, A's eventual resolution is a no-op for the UI. The code violates
this: the catch clause of fetchTikTokData rewraps the AbortError of A's
aborted fetch into a plain Error named Error carrying the generic message,
so handleDownload's AbortError check never fires; A's resolution surfaces
the generic error message, clears the loading flag that B had set, and
nulls the shared in-flight slot holding B's controller. The theorem
evaluates the trace: A starts (token 1), B starts (token 2, aborting A),
then A's fetch resolves as aborted. -/
theorem c1_aborted_lookup_resolution_not_a_noop :
    fetchTikTokData FetchOutcome.aborted =
      (Except.error { name := "Error", message := genericFetchMessage },
       [{ name := "AbortError", message := "The operation was aborted." }]) ∧
    (startLookup (startLookup {} 1) 2).loading = true ∧
    (startLookup (startLookup {} 1) 2).inFlight = some 2 ∧
    (startLookup (startLookup {} 1) 2).errorShown = none ∧
    (resumeLookup (startLookup (startLookup {} 1) 2) FetchOutcome.aborted).errorShown
      = some genericFetchMessage ∧
    (resumeLookup (startLookup (startLookup {} 1) 2) FetchOutcome.aborted).loading = false ∧
    (resumeLookup (startLookup (startLookup {} 1) 2) FetchOutcome.aborted).inFlight = none :=
  ⟨rfl, rfl, rfl, rfl, by decide, rfl, rfl⟩

/-- Claim C2: the claim says a 2xx JSON response with code 1 and msg
"rate limited" surfaces exactly "rate limited". The code violates this:
the try block's throw of the API message is swallowed by the catch clause
of fetchTikTokData, which replaces it with the fixed generic message. The
theorem shows the inner throw does carry "rate limited" while the caller
observes only the generic message. -/
theorem c2_api_message_replaced_by_generic :
    fetchInner (FetchOutcome.response true (JsonBody.parsed { code := 1, msg := some "rate limited" }))
      = Except.error { name := "Error", message := "rate limited" } ∧
    (fetchTikTokData (FetchOutcome.response true
        (JsonBody.parsed { code := 1, msg := some "rate limited" }))).1
      = Except.error { name := "Error", message := genericFetchMessage } ∧
    genericFetchMessage ≠ "rate limited" :=
  ⟨rfl, rfl, by decide⟩

/-- Claim C3, counterexample: the claim says the blob path is never
attempted on iOS. On iOS with a successful blob fetch, the dispatcher
performs the blob fetch and the blob anchor click and never opens a new
browsing context. -/
theorem c3_counterexample_blob_path_runs_on_ios :
    DlEvent.blobFetch "https://cdn.example/v.mp4"
       ∈ downloadMedia true true "https://cdn.example/v.mp4" "tiktok.mp4" ∧
    DlEvent.blobAnchorClick "tiktok.mp4"
       ∈ downloadMedia true true "https://cdn.example/v.mp4" "tiktok.mp4" ∧
    DlEvent.windowOpen "https://cdn.example/v.mp4"
       ∉ downloadMedia true true "https://cdn.example/v.mp4" "tiktok.mp4" := by
  decide

/-- Claim C3, amended: on a platform detected as iOS the dispatcher still
attempts the blob fetch-and-anchor path first; only when the blob fetch
fails does it open the raw media URL in a new browsing context after a
toast telling the user to save manually, while a non-iOS failure falls
back to a direct anchor navigation instead. -/
theorem c3_amended_ios_fallback_after_blob_failure (url filename : String) :
    downloadMedia true false url filename =
      [.toast "Starting download..." false, .blobFetch url,
       .toast "iOS: Please long press to save" true, .windowOpen url] ∧
    downloadMedia true true url filename =
      [.toast "Starting download..." false, .blobFetch url,
       .blobAnchorClick filename, .toast "Download started!" false] ∧
    downloadMedia false false url filename =
      [.toast "Starting download..." false, .blobFetch url, .anchorClick url filename] :=
  ⟨rfl, rfl, rfl⟩

/-- Claim C8: every lookup failure other than an API status failure — a
network error or malformed JSON — surfaces the fixed generic message,
which does not depend on the internal error, and the original error is
logged for diagnostics. -/
theorem c8_network_and_parse_failures_generic (m : String) :
    fetchTikTokData (FetchOutcome.networkError m) =
      (Except.error { name := "Error", message := genericFetchMessage },
       [{ name := "TypeError", message := m }]) ∧
    fetchTikTokData (FetchOutcome.response true (JsonBody.parseError m)) =
      (Except.error { name := "Error", message := genericFetchMessage },
       [{ name := "SyntaxError", message := m }]) :=
  ⟨rfl, rfl⟩

/-- Claim C5: a successful response with a present non-empty images array
normalizes to a photo result with the images populated and videoUrl
absent; and every normalized result satisfies the invariant that at most
one of a truthy videoUrl and a non-empty images field holds, the only
further case being the degraded one where both are absent and isPhoto is
false. -/
theorem truthy_none : truthy none = false := rfl

theorem jsImagesFlag_none : jsImagesFlag none = false := rfl

theorem c5_photo_normalization_and_invariant (d : ApiData) :
    (∀ l : List String, d.images = some l → l ≠ [] →
      (normalizeData d).isPhoto = true ∧ (normalizeData d).images = some l ∧
      (normalizeData d).videoUrl = none) ∧
    ((truthy (normalizeData d).videoUrl = true ∧ jsImagesFlag (normalizeData d).images = false) ∨
     (truthy (normalizeData d).videoUrl = false ∧ jsImagesFlag (normalizeData d).images = true) ∨
     (truthy (normalizeData d).videoUrl = false ∧ jsImagesFlag (normalizeData d).images = false ∧
      (normalizeData d).isPhoto = false)) := by
  constructor
  · intro l hl hnl
    have hflag : jsImagesFlag (some l) = true := by
      cases l with
      | nil => exact absurd rfl hnl
      | cons a t => rfl
    refine ⟨?_, ?_, ?_⟩ <;> simp [normalizeData, hl, hflag]
  · cases hflag : jsImagesFlag d.images with
    | false =>
        cases hv : truthy (jsOr d.hdplay (jsOr d.play d.wmplay)) with
        | false =>
            right; right
            refine ⟨?_, ?_, ?_⟩ <;> simp [normalizeData, hflag, hv, jsImagesFlag_none]
        | true =>
            left
            refine ⟨?_, ?_⟩ <;> simp [normalizeData, hflag, hv, jsImagesFlag_none]
    | true =>
        right; left
        refine ⟨?_, ?_⟩ <;> simp [normalizeData, hflag, truthy_none]

/-- Concrete lookup payload used to witness Claim C5. -/
def c5Data : ApiData := { images := some ["img1"], play := some "P" }

/-- Witness for Claim C5 at a concrete photo payload. -/
theorem c5_photo_normalization_and_invariant_witness :
    ((normalizeData c5Data).isPhoto = true ∧ (normalizeData c5Data).images = some ["img1"] ∧
     (normalizeData c5Data).videoUrl = none) ∧
    ((truthy (normalizeData c5Data).videoUrl = true ∧
        jsImagesFlag (normalizeData c5Data).images = false) ∨
     (truthy (normalizeData c5Data).videoUrl = false ∧
        jsImagesFlag (normalizeData c5Data).images = true) ∨
     (truthy (normalizeData c5Data).videoUrl = false ∧
        jsImagesFlag (normalizeData c5Data).images = false ∧
      (normalizeData c5Data).isPhoto = false)) :=
  ⟨(c5_photo_normalization_and_invariant c5Data).1 ["img1"] rfl (by decide),
   (c5_photo_normalization_and_invariant c5Data).2⟩

/-- Claim C6: with images empty or absent, videoUrl is populated from the
first truthy field among hdplay, play, wmplay in that order; in
particular hdplay A with play B selects A. -/
theorem c6_videourl_priority_order (d : ApiData)
    (him : d.images = none ∨ d.images = some []) :
    (truthy d.hdplay = true → (normalizeData d).videoUrl = d.hdplay) ∧
    (truthy d.hdplay = false → truthy d.play = true → (normalizeData d).videoUrl = d.play) ∧
    (truthy d.hdplay = false → truthy d.play = false → truthy d.wmplay = true →
      (normalizeData d).videoUrl = d.wmplay) ∧
    (normalizeData { images := none, hdplay := some "A", play := some "B" } : MediaResult).videoUrl
      = some "A" := by
  have hflag : jsImagesFlag d.images = false := by
    rcases him with h | h <;> rw [h] <;> rfl
  refine ⟨?_, ?_, ?_, ?_⟩
  · intro h1
    simp [normalizeData, hflag, jsOr, h1]
  · intro h1 h2
    simp [normalizeData, hflag, jsOr, h1, h2]
  · intro h1 h2 _
    simp [normalizeData, hflag, jsOr, h1, h2]
  · rfl

/-- Concrete lookup payload used to witness Claim C6. -/
def c6Data : ApiData := { hdplay := some "A", play := some "B" }

/-- Witness for Claim C6 at a concrete payload with hdplay A and play B. -/
theorem c6_videourl_priority_order_witness :
    (normalizeData c6Data).videoUrl = c6Data.hdplay :=
  (c6_videourl_priority_order c6Data (Or.inl rfl)).1 (by decide)

/-- Concrete lookup payload refuting the exactly-one-leading-at-sign part
of Claim C7: the author field already carries two at-signs. -/
def c7Data : ApiData := { author := some { unique_id := some "@@foo" } }

/-- Claim C7, counterexample: the displayed author does not always carry
exactly one leading at-sign; with unique_id already two at-signs, the
display keeps both, so the run of leading at-signs has length two. -/
theorem c7_counterexample_double_at_preserved :
    leadingAtCount (displayAuthor (normalizeData c7Data).author) ≠ 1 ∧
    leadingAtCount (displayAuthor (normalizeData c7Data).author) = 2 := by
  constructor <;> decide

/-- Claim C7, amended: the normalized title falls back to the placeholder
and the author falls back through unique_id then nickname to the at-tiktok
placeholder; the displayed author always starts with at least one leading
at-sign: one is prepended when the author string does not start with one,
and a string already starting with one is displayed unchanged (so foo
becomes at-foo, at-foo stays at-foo, and a field with several leading
at-signs keeps them all). -/
theorem jsStartsWith_at_append (s : String) : jsStartsWith ("@" ++ s) "@" = true := by
  unfold jsStartsWith
  rw [String.data_append, List.isPrefixOf_iff_prefix]
  exact List.prefix_append _ _

theorem displayAuthorCore_starts (b : String) :
    jsStartsWith (displayAuthorCore b) "@" = true := by
  unfold displayAuthorCore
  split
  · next h => exact h
  · next => exact jsStartsWith_at_append b

theorem c7_amended_author_display (d : ApiData) (a : String) :
    ((d.title = none ∨ d.title = some "") → (normalizeData d).title = "TikTok Content") ∧
    ((authUid d = none ∨ authUid d = some "") → (authNick d = none ∨ authNick d = some "") →
      (normalizeData d).author = "@tiktok") ∧
    ((authUid d = none ∨ authUid d = some "") →
      ∀ n : String, authNick d = some n → n ≠ "" → (normalizeData d).author = n) ∧
    jsStartsWith (displayAuthor a) "@" = true ∧
    (jsStartsWith a "@" = true → displayAuthor a = a) ∧
    displayAuthor "foo" = "@foo" ∧
    displayAuthor "@foo" = "@foo" := by
  refine ⟨?_, ?_, ?_, displayAuthorCore_starts _, ?_, by decide, by decide⟩
  · rintro (h | h) <;> simp [normalizeData, jsOrD, h]
  · rintro (h1 | h1) (h2 | h2) <;> simp [normalizeData, jsOrD, h1, h2]
  · rintro (h1 | h1) n h2 h3 <;> simp [normalizeData, jsOrD, h1, h2, h3]
  · intro h
    have hne : (a == "") = false := by
      cases ha : a == "" with
      | false => rfl
      | true =>
          have he : a = "" := eq_of_beq ha
          rw [he] at h
          exact absurd h (by decide)
    have ha' : (if a == "" then "tiktok" else a) = a := by simp [hne]
    unfold displayAuthor
    rw [ha']
    unfold displayAuthorCore
    rw [if_pos h]

/-- Concrete lookup payload used to witness the amended Claim C7. -/
def c7AmData : ApiData :=
  { title := some "", author := some { unique_id := some "", nickname := some "nick" } }

/-- Witness for the amended Claim C7 at concrete inputs. -/
theorem c7_amended_author_display_witness :
    (normalizeData c7AmData).title = "TikTok Content" ∧
    (normalizeData c7AmData).author = "nick" ∧
    jsStartsWith (displayAuthor "foo") "@" = true ∧
    displayAuthor "@foo" = "@foo" :=
  ⟨(c7_amended_author_display c7AmData "foo").1 (Or.inr rfl),
   (c7_amended_author_display c7AmData "foo").2.2.1 (Or.inr rfl) "nick" rfl (by decide),
   (c7_amended_author_display c7AmData "foo").2.2.2.1,
   (c7_amended_author_display c7AmData "@foo").2.2.2.2.1 (by decide)⟩

/-- Truthiness of a present empty string: falsy. -/
theorem truthy_some_empty : truthy (some "") = false := rfl

/-- Claim C10: an empty-string field is treated like an absent field at
every fallback step of the normalizer: an empty title falls back to the
placeholder, an empty unique_id falls through to the nickname and then to
the at-tiktok placeholder, and an empty hdplay falls through to play and
then to wmplay. -/
theorem c10_empty_string_treated_as_absent (d : ApiData) (a : Author) :
    (d.title = some "" → (normalizeData d).title = "TikTok Content") ∧
    (d.author = some a → a.unique_id = some "" →
      ((∀ n : String, a.nickname = some n → n ≠ "" → (normalizeData d).author = n) ∧
       ((a.nickname = none ∨ a.nickname = some "") → (normalizeData d).author = "@tiktok"))) ∧
    ((d.images = none ∨ d.images = some []) → d.hdplay = some "" →
      ((truthy d.play = true → (normalizeData d).videoUrl = d.play) ∧
       (truthy d.play = false → (normalizeData d).videoUrl = d.wmplay))) := by
  refine ⟨?_, ?_, ?_⟩
  · intro h
    simp [normalizeData, jsOrD, h]
  · intro hau huid
    have h1 : authUid d = some "" := by simp [authUid, hau, huid]
    constructor
    · intro n h2 h3
      have h2' : authNick d = some n := by simp [authNick, hau, h2]
      simp [normalizeData, jsOrD, h1, h2', h3]
    · rintro (h2 | h2)
      · have h2' : authNick d = none := by simp [authNick, hau, h2]
        simp [normalizeData, jsOrD, h1, h2']
      · have h2' : authNick d = some "" := by simp [authNick, hau, h2]
        simp [normalizeData, jsOrD, h1, h2']
  · intro him hhd
    have hflag : jsImagesFlag d.images = false := by
      rcases him with h | h <;> rw [h] <;> rfl
    constructor
    · intro hp
      simp [normalizeData, hflag, jsOr, hhd, truthy_some_empty, hp]
    · intro hp
      simp [normalizeData, hflag, jsOr, hhd, truthy_some_empty, hp]

/-- Concrete lookup payload used to witness Claim C10. -/
def c10Data : ApiData :=
  { title := some ""
  , author := some { unique_id := some "", nickname := some "nick" }
  , hdplay := some "", play := some "", wmplay := some "W" }

/-- Witness for Claim C10 at a concrete payload with empty-string fields. -/
theorem c10_empty_string_treated_as_absent_witness :
    (normalizeData c10Data).title = "TikTok Content" ∧
    (normalizeData c10Data).author = "nick" ∧
    (normalizeData c10Data).videoUrl = c10Data.wmplay :=
  ⟨(c10_empty_string_treated_as_absent c10Data { unique_id := some "", nickname := some "nick" }).1 rfl,
   ((c10_empty_string_treated_as_absent c10Data
      { unique_id := some "", nickname := some "nick" }).2.1 rfl rfl).1 "nick" rfl (by decide),
   ((c10_empty_string_treated_as_absent c10Data
      { unique_id := some "", nickname := some "nick" }).2.2 (Or.inl rfl) rfl).2 (by decide)⟩

/-- Claim C4: the validator accepts every string containing the canonical
video shape, the canonical photo shape, or one of the short-link host
forms (with an opaque token, no numeric identifier required), and rejects
the sample strings lacking those shapes. -/
theorem c4_validator_shapes :
    (∀ pre post u d : List Char, u ≠ [] → (∀ c ∈ u, wddChar c = true) →
      d ≠ [] → (∀ c ∈ d, Char.isDigit c = true) →
      isValidTikTokUrl
        (String.mk (pre ++ "tiktok.com/@".data ++ u ++ "/video/".data ++ d ++ post)) = true ∧
      isValidTikTokUrl
        (String.mk (pre ++ "tiktok.com/@".data ++ u ++ "/photo/".data ++ d ++ post)) = true) ∧
    (∀ pre post t : List Char, t ≠ [] → (∀ c ∈ t, wdChar c = true) →
      isValidTikTokUrl (String.mk (pre ++ "vm.tiktok.com/".data ++ t ++ post)) = true ∧
      isValidTikTokUrl (String.mk (pre ++ "vt.tiktok.com/".data ++ t ++ post)) = true ∧
      isValidTikTokUrl (String.mk (pre ++ "tiktok.com/t/".data ++ t ++ post)) = true) ∧
    isValidTikTokUrl "not a url" = false ∧
    isValidTikTokUrl "https://youtube.com/watch?v=1" = false := by
  refine ⟨?_, ?_, by decide, by decide⟩
  · intro pre post u d hu0 hu hd0 hd
    constructor
    · have h := isValidL_of_matches pat1 pat1_mem pre _ post (matches_pat1 hu0 hu hd0 hd)
      simpa [isValidTikTokUrl, isValidL, List.append_assoc] using h
    · have h := isValidL_of_matches pat3 pat3_mem pre _ post (matches_pat3 hu0 hu hd0 hd)
      simpa [isValidTikTokUrl, isValidL, List.append_assoc] using h
  · intro pre post t ht0 ht
    refine ⟨?_, ?_, ?_⟩
    · have h := isValidL_of_matches pat5 pat5_mem pre _ post (matches_pat5 ht0 ht)
      simpa [isValidTikTokUrl, isValidL, List.append_assoc] using h
    · have h := isValidL_of_matches pat6 pat6_mem pre _ post (matches_pat6 ht0 ht)
      simpa [isValidTikTokUrl, isValidL, List.append_assoc] using h
    · have h := isValidL_of_matches pat7 pat7_mem pre _ post (matches_pat7 ht0 ht)
      simpa [isValidTikTokUrl, isValidL, List.append_assoc] using h

/-- Witness for Claim C4 at concrete canonical and short-link URLs. -/
theorem c4_validator_shapes_witness :
    isValidTikTokUrl
      (String.mk ("https://www.".data ++ "tiktok.com/@".data ++ "user".data
        ++ "/video/".data ++ "123".data ++ [])) = true ∧
    isValidTikTokUrl
      (String.mk ("https://".data ++ "vm.tiktok.com/".data ++ "Zab-c".data ++ [])) = true :=
  ⟨(c4_validator_shapes.1 "https://www.".data [] "user".data "123".data
      (by decide) (by decide) (by decide) (by decide)).1,
   (c4_validator_shapes.2.1 "https://".data [] "Zab-c".data (by decide) (by decide)).1⟩

/-- Claim C9: the validator's patterns are unanchored: any string that
contains, anywhere as a substring, a word matching one of the seven
patterns is accepted, including the sample strings that are not URLs on
the platform's host. -/
theorem c9_validator_unanchored :
    (∀ (p : RE) (pre mid post : List Char), p ∈ patterns → Matches p mid →
      isValidTikTokUrl (String.mk (pre ++ mid ++ post)) = true) ∧
    isValidTikTokUrl "https://evil.example/?q=vm.tiktok.com/abc" = true ∧
    isValidTikTokUrl "xtiktok.com/@a/video/1" = true := by
  refine ⟨?_, by decide, by decide⟩
  intro p pre mid post hp hm
  exact isValidL_of_matches p hp pre mid post hm

/-- Witness for Claim C9: a matching substring embedded in a foreign URL. -/
theorem c9_validator_unanchored_witness :
    isValidTikTokUrl
      (String.mk ("https://evil.example/?q=".data
        ++ ("vm.tiktok.com/".data ++ "abc".data) ++ [])) = true :=
  c9_validator_unanchored.1 pat5 "https://evil.example/?q=".data
    ("vm.tiktok.com/".data ++ "abc".data) [] pat5_mem
    (matches_pat5 (by decide) (by decide))

end TikTokDL
